import Mathlib

/-!
Verification of the lane-marking builder of `src/editor/src/render/lane.rs`.

The file shallowly embeds the marking generators of that source file.  The
geometric and map-model primitives they call (`geom` and `map_model` crates)
are not part of the source tree, so they are modelled from the specification
(spec §3, §4.2, §6) over exact rational arithmetic: a heading ("Angle") is
carried as a unit direction vector, and a polyline is a start point together
with a list of (direction, length) segments, which makes arc-length sampling
exact.  Markings are represented as tagged data carrying their precomputed
geometry, as the spec's design notes (§9) prescribe.
-/

namespace AbStreet

/-- Modelled from the spec (geom crate, not under src/): a 2-D point with
rational coordinates. -/
structure Pt2D where
  x : ℚ
  y : ℚ
deriving DecidableEq, Repr

/-- Modelled from the spec (geom crate, not under src/): a heading, carried as
a unit direction vector so that rotation by quarter turns and projection along
the heading are exact rational operations. -/
structure Angle where
  ux : ℚ
  uy : ℚ
deriving DecidableEq, Repr

/-- A heading is well formed when its direction vector has norm one. -/
def Angle.isUnit (a : Angle) : Prop := a.ux ^ 2 + a.uy ^ 2 = 1

instance (a : Angle) : Decidable a.isUnit := by
  unfold Angle.isUnit; infer_instance

/-- Modelled from the spec: the opposite heading (rotation by 180 degrees). -/
def Angle.opposite (a : Angle) : Angle := ⟨-a.ux, -a.uy⟩

/-- Modelled from the spec (geom crate): rotation of a heading by a number of
degrees.  The source file only ever rotates by the quarter turns 90, 180 and
270, which are exact on rational direction vectors; other arguments (never
used) leave the heading unchanged. -/
def Angle.rotate_degs (a : Angle) (degs : ℚ) : Angle :=
  if degs = 90 then ⟨-a.uy, a.ux⟩
  else if degs = 180 then ⟨-a.ux, -a.uy⟩
  else if degs = 270 then ⟨a.uy, -a.ux⟩
  else a

/-- Modelled from the spec (geom crate): move a point a given distance along a
heading. -/
def Pt2D.project_away (pt : Pt2D) (dist : ℚ) (a : Angle) : Pt2D :=
  ⟨pt.x + dist * a.ux, pt.y + dist * a.uy⟩

/-- Modelled from the spec (geom crate): a two-point line segment.  The
heading from `pt1` to `pt2` is carried explicitly (`angle`) because exact
normalisation of an arbitrary rational vector is impossible; every call site
of the source file constructs a line whose heading is statically known. -/
structure Line where
  pt1 : Pt2D
  pt2 : Pt2D
  angle : Angle
deriving DecidableEq, Repr

/-- Modelled from the spec (geom crate): line construction (the heading
argument records the direction from `p` to `q`, see `Line`). -/
def Line.new (p q : Pt2D) (a : Angle) : Line := ⟨p, q, a⟩

/-- Modelled from the spec (geom crate): translate a line perpendicularly to
the right of its heading. -/
def Line.shift_right (l : Line) (d : ℚ) : Line :=
  let p := l.angle.rotate_degs 90
  ⟨l.pt1.project_away d p, l.pt2.project_away d p, l.angle⟩

/-- Modelled from the spec (geom crate): translate a line perpendicularly to
the left of its heading. -/
def Line.shift_left (l : Line) (d : ℚ) : Line :=
  let p := l.angle.rotate_degs 270
  ⟨l.pt1.project_away d p, l.pt2.project_away d p, l.angle⟩

/-- Squared Euclidean length of a line segment (squared so that it stays
rational). -/
def Line.lengthSq (l : Line) : ℚ :=
  (l.pt2.x - l.pt1.x) ^ 2 + (l.pt2.y - l.pt1.y) ^ 2

/-- Modelled from the spec (geom crate): one polyline segment, a heading (unit
direction) together with an arc length. -/
structure Seg where
  dir : Angle
  len : ℚ
deriving DecidableEq, Repr

/-- Modelled from the spec (geom crate): a polyline as a start point plus a
list of directed segments; arc-length sampling over this representation is
exact rational arithmetic. -/
structure PolyLine where
  start : Pt2D
  segs : List Seg
deriving DecidableEq, Repr

/-- Total arc length of a polyline. -/
def PolyLine.length (pl : PolyLine) : ℚ :=
  (pl.segs.map Seg.len).sum

/-- All segment headings of a polyline are unit vectors. -/
def PolyLine.unitDirs (pl : PolyLine) : Prop :=
  ∀ s ∈ pl.segs, s.dir.isUnit

instance (pl : PolyLine) : Decidable pl.unitDirs := by
  unfold PolyLine.unitDirs; infer_instance

/-- Modelled from the spec §4.2 (`sample`): walk the segments to the one
containing the requested arc length and return the point and heading there.
Beyond the final segment the last heading is extrapolated (call sites guard
the range; see `safe_dist_along`). -/
def distAlongSegs : Pt2D → List Seg → ℚ → Pt2D × Angle
  | cur, [], _ => (cur, ⟨1, 0⟩)
  | cur, s :: rest, d =>
    if d ≤ s.len ∨ rest = [] then (cur.project_away d s.dir, s.dir)
    else distAlongSegs (cur.project_away s.len s.dir) rest (d - s.len)

/-- Modelled from the spec §4.2: point and heading at an arc length along a
polyline. -/
def PolyLine.dist_along (pl : PolyLine) (d : ℚ) : Pt2D × Angle :=
  distAlongSegs pl.start pl.segs d

/-- End point of a polyline. -/
def PolyLine.last_pt (pl : PolyLine) : Pt2D :=
  pl.segs.foldl (fun cur s => cur.project_away s.len s.dir) pl.start

/-- The constituent line segments of a polyline (used for the road's center
marking). -/
def PolyLine.lines : Pt2D → List Seg → List Line
  | _, [] => []
  | cur, s :: rest =>
    Line.new cur (cur.project_away s.len s.dir) s.dir :: PolyLine.lines (cur.project_away s.len s.dir) rest

/-- Modelled from the spec §4.2 (`slice`): the directed segments of the
sub-polyline between arc lengths `a` and `b`. -/
def sliceSegs : List Seg → ℚ → ℚ → List Seg
  | [], _, _ => []
  | s :: rest, a, b =>
    if b ≤ a then []
    else if s.len ≤ a then sliceSegs rest (a - s.len) (b - s.len)
    else ⟨s.dir, min b s.len - a⟩ ::
      (if b ≤ s.len then [] else sliceSegs rest 0 (b - s.len))

/-- Modelled from the spec §4.2 (`slice`): the sub-polyline between two arc
lengths, paired with the requested length that hung over the polyline's end
(the source only ever uses the first component). -/
def PolyLine.slice (pl : PolyLine) (a b : ℚ) : PolyLine × ℚ :=
  (⟨(pl.dist_along a).1, sliceSegs pl.segs a b⟩, max 0 (b - pl.length))

/-- Modelled from the spec §4.2 (`shift`): offset a polyline perpendicularly.
The start point moves by the offset along the first heading rotated a quarter
turn; segment headings and lengths are preserved (the real implementation's
corner corrections are not modelled — no claim depends on them). -/
def PolyLine.shiftBy (pl : PolyLine) (d : ℚ) (degs : ℚ) : PolyLine :=
  let dir0 := (pl.segs.headD ⟨⟨1, 0⟩, 0⟩).dir
  ⟨pl.start.project_away d (dir0.rotate_degs degs), pl.segs⟩

/-- Modelled from the spec §4.2: shift a polyline left. -/
def PolyLine.shift_left (pl : PolyLine) (d : ℚ) : PolyLine := pl.shiftBy d 270

/-- Modelled from the spec §4.2: shift a polyline right. -/
def PolyLine.shift_right (pl : PolyLine) (d : ℚ) : PolyLine := pl.shiftBy d 90

/-- Modelled from the spec §4.1 step 1: a filled polygon, kept as the extruded
polyline together with the extrusion width. -/
structure Polygon where
  source : PolyLine
  width : ℚ
deriving DecidableEq, Repr

/-- Modelled from the spec §4.1 step 1: extrude a polyline to a thickness. -/
def PolyLine.make_polygons (pl : PolyLine) (thickness : ℚ) : Polygon :=
  ⟨pl, thickness⟩

/-- Modelled from the spec §4.2 (`dashed_polygons`): rectangles of length
`dashLen` separated by `gap` along the polyline, clipped to its extent; dash
`k` starts at arc length `k * (dashLen + gap)`. -/
def PolyLine.dashed_polygons (pl : PolyLine) (thickness dashLen gap : ℚ) : List Polygon :=
  (List.range (⌈pl.length / (dashLen + gap)⌉).toNat).map fun k =>
    ((pl.slice (k * (dashLen + gap)) (min (k * (dashLen + gap) + dashLen) pl.length)).1).make_polygons
      thickness

/-- Modelled from the spec (map_model constant, not under src/): lane
thickness in meters. -/
def LANE_THICKNESS : ℚ := 5 / 2

/-- Modelled from the spec (map_model constant, not under src/): length of one
parking spot in meters. -/
def PARKING_SPOT_LENGTH : ℚ := 8

/-- Modelled from the spec (render constant, not under src/): stroke thickness
of the road's center marking ("center-marking thickness" in the spec); the
claims only use it symbolically. -/
def BIG_ARROW_THICKNESS : ℚ := 1 / 2

/-- Lane categories, from the spec §3 and the source's `match`. -/
inductive LaneType where
  | Driving
  | Parking
  | Sidewalk
  | Biking
  | Bus
deriving DecidableEq, Repr

/-- Modelled from the spec §3: the lane record as consumed by the source file.
`number_parking_spots` is the external capacity accessor, kept as data. -/
structure Lane where
  id : Nat
  lane_center_pts : PolyLine
  lane_type : LaneType
  parent : Nat
  dst_i : Nat
  number_parking_spots : Nat
deriving Repr

/-- Arc length of the lane's centerline. -/
def Lane.length (lane : Lane) : ℚ := lane.lane_center_pts.length

/-- Point and heading at an arc length along the lane. -/
def Lane.dist_along (lane : Lane) (d : ℚ) : Pt2D × Angle :=
  lane.lane_center_pts.dist_along d

/-- Modelled from the spec §4.2: the guarded sampler, empty when the requested
arc length falls outside the centerline. -/
def Lane.safe_dist_along (lane : Lane) (d : ℚ) : Option (Pt2D × Angle) :=
  if 0 ≤ d ∧ d ≤ lane.length then some (lane.dist_along d) else none

/-- Modelled from the spec §4.1 step 4: a driving-capable lane. -/
def Lane.is_driving (lane : Lane) : Bool :=
  lane.lane_type == LaneType.Driving || lane.lane_type == LaneType.Bus

/-- All centerline headings of the lane are unit vectors. -/
def Lane.unitDirs (lane : Lane) : Prop := lane.lane_center_pts.unitDirs

instance (lane : Lane) : Decidable lane.unitDirs := by
  unfold Lane.unitDirs; infer_instance

/-- Modelled from the spec §3: the road record. `canonical_lane` is the one
lane carrying the road's center marking; `dir_and_offset` is the external
cross-section query returning the side and the offset within the road. -/
structure Road where
  id : Nat
  center_pts : PolyLine
  canonical_lane : Nat
  zorder : Int
  dir_and_offset : Nat → Bool × Nat

/-- Whether the given lane is the road's canonical lane. -/
def Road.is_canonical_lane (road : Road) (l : Nat) : Bool :=
  l == road.canonical_lane

/-- Draw layering order of the road. -/
def Road.get_zorder (road : Road) : Int := road.zorder

/-- Intersection control types, from the spec §3. -/
inductive IntersectionType where
  | StopSign
  | TrafficSignal
  | Border
deriving DecidableEq, Repr

/-- Modelled from the spec §3: the intersection record. -/
structure Intersection where
  intersection_type : IntersectionType
deriving Repr

/-- Modelled from the spec §3: a stop sign's set of priority lanes. -/
structure ControlStopSign where
  priority : List Nat
deriving Repr

/-- Whether the lane is in the stop sign's priority set. -/
def ControlStopSign.is_priority_lane (ss : ControlStopSign) (l : Nat) : Bool :=
  ss.priority.contains l

/-- Modelled from the spec §3: a turn departing a source lane, with its
derived heading. -/
structure Turn where
  id_src : Nat
  angle : Angle
deriving DecidableEq, Repr

/-- Modelled from the spec §6: the read-only map queries the source file
uses. -/
structure Map where
  get_r : Nat → Road
  get_l : Nat → Lane
  get_i : Nat → Intersection
  get_stop_sign : Nat → ControlStopSign
  get_turns_from_lane : Nat → List Turn
  find_closest_lane : Nat → List LaneType → Option Nat

/-- Tags identifying each marking variant. -/
inductive MarkingKind where
  | roadCenterLine
  | sidewalkLines
  | parkingLines
  | drivingLines
  | turnMarking
  | stopLine
deriving DecidableEq, BEq, Repr

/-- The marking produced by a generator, as tagged data carrying its
precomputed geometry (spec §3 and §9). -/
inductive Marking where
  | roadCenterLine (lines : List Line)
  | sidewalkLines (lines : List Line)
  | parkingLines (lines : List Line)
  | drivingLines (polygons : List Polygon)
  | turnMarking (base : Polygon) (arrow : Line)
  | stopLine (line : Line)
deriving DecidableEq, Repr

instance : Inhabited Marking := ⟨Marking.roadCenterLine []⟩

/-- The tag of a marking. -/
def Marking.kind : Marking → MarkingKind
  | .roadCenterLine _ => .roadCenterLine
  | .sidewalkLines _ => .sidewalkLines
  | .parkingLines _ => .parkingLines
  | .drivingLines _ => .drivingLines
  | .turnMarking _ _ => .turnMarking
  | .stopLine _ => .stopLine

/-- From `lane.rs` (`perp_line`): a segment of the requested length centered
at the line's first point, perpendicular to it, built by shifting the line
right and left by half of the length. -/
def perp_line (l : Line) (length : ℚ) : Line :=
  let pt1 := (l.shift_right (length / 2)).pt1
  let pt2 := (l.shift_left (length / 2)).pt1
  Line.new pt1 pt2 (l.angle.rotate_degs 270)

/-- The loop body of `calculate_sidewalk_lines`: the perpendicular tick at one
arc length along the lane (the source projects away an arbitrary unit to reuse
`perp_line`). -/
def sidewalkTickAt (lane : Lane) (dist : ℚ) : Line :=
  let s := lane.dist_along dist
  let pt2 := s.1.project_away 1 s.2
  perp_line (Line.new s.1 pt2 s.2) LANE_THICKNESS

/-- From `lane.rs` (`calculate_sidewalk_lines`): the `while` loop, pushing a
tick at each multiple of the tile spacing strictly below `length` minus one
spacing. -/
def sidewalk_loop (lane : Lane) (length dist : ℚ) : List Line :=
  if dist < length - LANE_THICKNESS then
    sidewalkTickAt lane dist :: sidewalk_loop lane length (dist + LANE_THICKNESS)
  else []
termination_by (⌈(length - dist) / LANE_THICKNESS⌉).toNat
decreasing_by
  have hS : (0 : ℚ) < LANE_THICKNESS := by norm_num [LANE_THICKNESS]
  have h1 : (length - (dist + LANE_THICKNESS)) / LANE_THICKNESS
      = (length - dist) / LANE_THICKNESS - 1 := by field_simp; ring
  have h2 : (1 : ℚ) < (length - dist) / LANE_THICKNESS := by
    rw [lt_div_iff₀ hS]; linarith
  have h3 : (1 : ℤ) < ⌈(length - dist) / LANE_THICKNESS⌉ := by
    exact_mod_cast Int.lt_ceil.mpr (by exact_mod_cast h2)
  rw [h1, Int.ceil_sub_one]
  omega

/-- From `lane.rs` (`calculate_sidewalk_lines`): tile spacing equals the lane
thickness; ticks start one spacing in from the lane's start. -/
def sidewalk_lines (lane : Lane) : List Line :=
  sidewalk_loop lane lane.length LANE_THICKNESS

/-- The sidewalk generator's marking (the source returns a closure drawing the
precomputed ticks). -/
def calculate_sidewalk_lines (lane : Lane) : Marking :=
  .sidewalkLines (sidewalk_lines lane)

/-- From `lane.rs` (`calculate_parking_lines` loop body): the three bracket
legs of one spot index — the anchor is sampled at `PARKING_SPOT_LENGTH * (1 +
idx)`, the heading is rotated 270 degrees, the anchor is pushed 40% of the
lane thickness along that perpendicular, and three legs of length one are
drawn (perpendicular stem, upper leg, lower leg). -/
def parking_spot_lines (lane : Lane) (idx : Nat) : List Line :=
  let s := lane.dist_along (PARKING_SPOT_LENGTH * (1 + (idx : ℚ)))
  let perp_angle := s.2.rotate_degs 270
  let t_pt := s.1.project_away (LANE_THICKNESS * (2 / 5)) perp_angle
  let p1 := t_pt.project_away 1 perp_angle.opposite
  let p2 := t_pt.project_away 1 s.2
  let p3 := t_pt.project_away 1 s.2.opposite
  [Line.new t_pt p1 perp_angle.opposite, Line.new t_pt p2 s.2, Line.new t_pt p3 s.2.opposite]

/-- From `lane.rs` (`calculate_parking_lines`): the `for idx in 0..=num_spots`
loop, pushing the three legs of each spot in order. -/
def parking_lines_upto (lane : Lane) : Nat → List Line
  | 0 => parking_spot_lines lane 0
  | k + 1 => parking_lines_upto lane k ++ parking_spot_lines lane (k + 1)

/-- From `lane.rs` (`calculate_parking_lines`): all stall-bracket legs; empty
when the lane has no parking spots. -/
def parking_lines (lane : Lane) : List Line :=
  if 0 < lane.number_parking_spots then parking_lines_upto lane lane.number_parking_spots
  else []

/-- The parking generator's marking. -/
def calculate_parking_lines (lane : Lane) : Marking :=
  .parkingLines (parking_lines lane)

/-- From `lane.rs` (`calculate_driving_lines`): no divider for the lane at
cross-section offset 0; shift the centerline left by half the lane thickness,
give up when that edge is shorter than two dash separations, else dash the
edge with one separation sliced off each end (dash length 1, separation 3/2,
thickness 1/4). -/
def calculate_driving_lines (lane : Lane) (parent : Road) : Option Marking :=
  if (parent.dir_and_offset lane.id).2 = 0 then none
  else
    let lane_edge_pts := lane.lane_center_pts.shift_left (LANE_THICKNESS / 2)
    if lane_edge_pts.length < 2 * (3 / 2) then none
    else
      some (.drivingLines
        (((lane_edge_pts.slice (3 / 2) (lane_edge_pts.length - 3 / 2)).1).dashed_polygons
          (1 / 4) 1 (3 / 2)))

/-- From `lane.rs` (`calculate_stop_sign_line`): nothing for a priority lane;
sample one meter before the lane's end (empty when out of range), and build a
perpendicular there — on the canonical lane shifted right by half the center
marking's thickness and shortened by that thickness. -/
def calculate_stop_sign_line (road : Road) (lane : Lane) (map : Map) : Option Marking :=
  if (map.get_stop_sign lane.dst_i).is_priority_lane lane.id then none
  else
    match lane.safe_dist_along (lane.length - 1) with
    | none => none
    | some (pt1, angle) =>
      let pt2 := pt1.project_away 1 angle
      let line :=
        if road.is_canonical_lane lane.id then
          perp_line ((Line.new pt1 pt2 angle).shift_right (BIG_ARROW_THICKNESS / 2))
            (LANE_THICKNESS - BIG_ARROW_THICKNESS)
        else
          perp_line (Line.new pt1 pt2 angle) LANE_THICKNESS
      some (.stopLine line)

/-- From `lane.rs` (`turn_markings`): nothing when the turn's source lane is
shorter than 7 meters; otherwise the common base is the centerline slice from
7 to 5 meters before the end, extruded thinly, and the arrow runs from the
base's last point along the turn's heading for half the lane thickness. -/
def turn_markings (turn : Turn) (map : Map) : Option Marking :=
  let lane := map.get_l turn.id_src
  let len := lane.length
  if len < 7 then none
  else
    let common_base := (lane.lane_center_pts.slice (len - 7) (len - 5)).1
    let base_polygon := common_base.make_polygons (1 / 10)
    let turn_line :=
      Line.new common_base.last_pt
        (common_base.last_pt.project_away (LANE_THICKNESS / 2) turn.angle) turn.angle
    some (.turnMarking base_polygon turn_line)

/-- From `lane.rs` (`calculate_turn_markings`): nothing when the
closest-driving-lane query fails; otherwise one optional marking per departing
turn. -/
def calculate_turn_markings (map : Map) (lane : Lane) : List Marking :=
  if (map.find_closest_lane lane.id [LaneType.Driving]).isNone then []
  else (map.get_turns_from_lane lane.id).filterMap (fun t => turn_markings t map)

/-- From `lane.rs` (`DrawLane::new`): the `match lane.lane_type` dispatch —
sidewalk and parking push their marking unconditionally, driving and bus push
the optional divider followed by the turn markings, biking pushes nothing. -/
def typeMarkings (lane : Lane) (road : Road) (map : Map) : List Marking :=
  match lane.lane_type with
  | .Sidewalk => [calculate_sidewalk_lines lane]
  | .Parking => [calculate_parking_lines lane]
  | .Driving | .Bus =>
    (calculate_driving_lines lane road).toList ++ calculate_turn_markings map lane
  | .Biking => []

/-- From `lane.rs` (`DrawLane::new`): the ordered marking list — the road's
center marking on the canonical lane, then the lane-type specific markings,
then the stop line for driving-capable lanes at stop-sign intersections. -/
def laneMarkings (lane : Lane) (map : Map) : List Marking :=
  let road := map.get_r lane.parent
  (if road.is_canonical_lane lane.id then
      [Marking.roadCenterLine (PolyLine.lines road.center_pts.start road.center_pts.segs)]
    else [])
  ++ typeMarkings lane road map
  ++ (if lane.is_driving
        && (map.get_i lane.dst_i).intersection_type == IntersectionType.StopSign then
      (calculate_stop_sign_line road lane map).toList
    else [])

/-- The per-lane aggregate (`DrawLane` in the source, `LaneVisual` in the
spec). -/
structure DrawLane where
  id : Nat
  polygon : Polygon
  markings : List Marking
  zorder : Int
deriving Repr

/-- From `lane.rs` (`DrawLane::new`): the builder — body polygon by extrusion,
the ordered marking list, and the parent road's z-order. -/
def DrawLane.new (lane : Lane) (map : Map) : DrawLane :=
  let road := map.get_r lane.parent
  { id := lane.id
    polygon := lane.lane_center_pts.make_polygons LANE_THICKNESS
    markings := laneMarkings lane map
    zorder := road.get_zorder }

/-- A straight west-to-east polyline of the given length. -/
def straight (len : ℚ) : PolyLine := ⟨⟨0, 0⟩, [⟨⟨1, 0⟩, len⟩]⟩

/-- A sidewalk lane of length 15/2 (three tile spacings), exhibiting the
boundary behaviour of the sidewalk tick loop. -/
def cxLane : Lane := ⟨0, straight (15 / 2), .Sidewalk, 0, 1, 0⟩

/-- A short sidewalk lane (length 4, below two tile spacings). -/
def swLane : Lane := ⟨3, straight 4, .Sidewalk, 0, 1, 0⟩

/-- A parking lane with two spots. -/
def pLane : Lane := ⟨1, straight 20, .Parking, 0, 1, 2⟩

/-- A straight driving lane of length 20. -/
def c7lane : Lane := ⟨0, straight 20, .Driving, 0, 1, 0⟩

/-- A road whose canonical lane is some other lane and which places every lane
at cross-section offset 1. -/
def c7road : Road := ⟨0, straight 20, 7, 0, fun _ => (true, 1)⟩

/-- A map with a stop-sign destination intersection, no priority lanes, two
turns departing lane 0, and a sibling driving lane. -/
def c7map : Map :=
  ⟨fun _ => c7road, fun _ => c7lane, fun _ => ⟨.StopSign⟩, fun _ => ⟨[]⟩,
    fun i => if i = 0 then [⟨0, ⟨0, 1⟩⟩, ⟨0, ⟨1, 0⟩⟩] else [], fun _ _ => some 5⟩

/-- A road placing every lane at cross-section offset 0. -/
def zeroOffsetRoad : Road := ⟨1, straight 20, 7, 0, fun _ => (true, 0)⟩

/-- A road whose canonical lane is lane 0. -/
def c4road : Road := ⟨0, straight 2, 0, 0, fun _ => (true, 0)⟩

/-- A map marking lane 0 as a priority lane at its stop-sign destination. -/
def c4map : Map :=
  ⟨fun _ => c4road, fun _ => c7lane, fun _ => ⟨.StopSign⟩, fun _ => ⟨[0]⟩,
    fun _ => [], fun _ _ => none⟩

/-- A lane of length 1/2, too short to sample one meter before its end. -/
def shortLane : Lane := ⟨2, straight (1 / 2), .Driving, 0, 1, 0⟩

/-- A map on which the closest-driving-lane query fails. -/
def c6map : Map :=
  ⟨fun _ => c7road, fun _ => c7lane, fun _ => ⟨.StopSign⟩, fun _ => ⟨[]⟩,
    fun _ => [], fun _ _ => none⟩

/-! ### Helper lemmas -/

theorem Angle.rotate_degs_90 (a : Angle) : a.rotate_degs 90 = ⟨-a.uy, a.ux⟩ := by
  norm_num [Angle.rotate_degs]

theorem Angle.rotate_degs_270 (a : Angle) : a.rotate_degs 270 = ⟨a.uy, -a.ux⟩ := by
  norm_num [Angle.rotate_degs]

theorem Angle.isUnit_rotate_degs (a : Angle) (d : ℚ) (h : a.isUnit) :
    (a.rotate_degs d).isUnit := by
  unfold Angle.rotate_degs
  unfold Angle.isUnit at h ⊢
  split_ifs <;> ring_nf <;> ring_nf at h <;> linarith

theorem Angle.isUnit_opposite (a : Angle) (h : a.isUnit) : a.opposite.isUnit := by
  unfold Angle.opposite
  unfold Angle.isUnit at h ⊢
  ring_nf
  ring_nf at h
  linarith

theorem distAlongSegs_isUnit (segs : List Seg) (cur : Pt2D) (d : ℚ)
    (h : ∀ s ∈ segs, s.dir.isUnit) : (distAlongSegs cur segs d).2.isUnit := by
  induction segs generalizing cur d with
  | nil => simp [distAlongSegs, Angle.isUnit]
  | cons s rest ih =>
    rw [distAlongSegs]
    split
    · exact h s (List.mem_cons_self s rest)
    · exact ih _ _ fun t ht => h t (List.mem_cons_of_mem s ht)

theorem Lane.dist_along_isUnit (lane : Lane) (d : ℚ) (hu : lane.unitDirs) :
    (lane.dist_along d).2.isUnit :=
  distAlongSegs_isUnit _ _ _ hu

theorem Lane.safe_dist_along_isUnit (lane : Lane) (d : ℚ) (pt : Pt2D) (a : Angle)
    (h : lane.safe_dist_along d = some (pt, a)) (hu : lane.unitDirs) : a.isUnit := by
  unfold Lane.safe_dist_along at h
  split at h
  · have h2 : lane.dist_along d = (pt, a) := by injection h
    have := lane.dist_along_isUnit d hu
    rw [h2] at this
    exact this
  · cases h

theorem line_new_project_lengthSq (p : Pt2D) (d : Angle) (dist : ℚ) (h : d.isUnit) :
    (Line.new p (p.project_away dist d) d).lengthSq = dist ^ 2 := by
  unfold Angle.isUnit at h
  unfold Line.new Pt2D.project_away Line.lengthSq
  ring_nf
  linear_combination dist ^ 2 * h

theorem perp_line_lengthSq (l : Line) (L : ℚ) (h : l.angle.isUnit) :
    (perp_line l L).lengthSq = L ^ 2 := by
  unfold Angle.isUnit at h
  unfold perp_line Line.shift_right Line.shift_left Line.new Pt2D.project_away Line.lengthSq
  rw [Angle.rotate_degs_90, Angle.rotate_degs_270]
  ring_nf
  linear_combination L ^ 2 * h

theorem sidewalk_loop_eq_aux (lane : Lane) :
    ∀ (n : Nat) (length dist : ℚ), (⌈(length - dist) / LANE_THICKNESS⌉).toNat ≤ n →
      sidewalk_loop lane length dist
        = (List.range (⌈(length - LANE_THICKNESS - dist) / LANE_THICKNESS⌉).toNat).map
            (fun k : Nat => sidewalkTickAt lane (dist + LANE_THICKNESS * (k : ℚ))) := by
  have hS : (0 : ℚ) < LANE_THICKNESS := by norm_num [LANE_THICKNESS]
  intro n
  induction n with
  | zero =>
    intro length dist h
    have h0 : ⌈(length - dist) / LANE_THICKNESS⌉ ≤ 0 := by omega
    have h1 : (length - dist) / LANE_THICKNESS ≤ 0 := by exact_mod_cast Int.ceil_le.mp h0
    have h2 : length - dist ≤ 0 := by
      by_contra hc
      push_neg at hc
      exact absurd h1 (not_le.mpr (div_pos hc hS))
    rw [sidewalk_loop, if_neg (by linarith)]
    have h3 : (length - LANE_THICKNESS - dist) / LANE_THICKNESS ≤ 0 :=
      div_nonpos_of_nonpos_of_nonneg (by linarith) (le_of_lt hS)
    have h4 : ⌈(length - LANE_THICKNESS - dist) / LANE_THICKNESS⌉ ≤ 0 :=
      Int.ceil_le.mpr (by exact_mod_cast h3)
    have h5 : (⌈(length - LANE_THICKNESS - dist) / LANE_THICKNESS⌉).toNat = 0 := by omega
    rw [h5]
    simp
  | succ n ih =>
    intro length dist h
    rw [sidewalk_loop]
    by_cases hg : dist < length - LANE_THICKNESS
    · rw [if_pos hg]
      have hdiv : (length - (dist + LANE_THICKNESS)) / LANE_THICKNESS
          = (length - dist) / LANE_THICKNESS - 1 := by field_simp; ring
      have hmeas : (⌈(length - dist - LANE_THICKNESS) / LANE_THICKNESS⌉).toNat ≤ n := by
        have : (length - (dist + LANE_THICKNESS)) = length - dist - LANE_THICKNESS := by ring
        rw [← this, hdiv, Int.ceil_sub_one]
        omega
      have hrec := ih length (dist + LANE_THICKNESS) (by
        have : length - (dist + LANE_THICKNESS) = length - dist - LANE_THICKNESS := by ring
        rw [this]
        exact hmeas)
      rw [hrec]
      have hdiv2 : (length - LANE_THICKNESS - (dist + LANE_THICKNESS)) / LANE_THICKNESS
          = (length - LANE_THICKNESS - dist) / LANE_THICKNESS - 1 := by field_simp; ring
      have hpos : (0 : ℚ) < (length - LANE_THICKNESS - dist) / LANE_THICKNESS :=
        div_pos (by linarith) hS
      have hone : 1 ≤ ⌈(length - LANE_THICKNESS - dist) / LANE_THICKNESS⌉ := by
        have := Int.ceil_pos.mpr hpos
        omega
      have hsucc : (⌈(length - LANE_THICKNESS - dist) / LANE_THICKNESS⌉).toNat
          = (⌈(length - LANE_THICKNESS - (dist + LANE_THICKNESS)) / LANE_THICKNESS⌉).toNat + 1 := by
        rw [hdiv2, Int.ceil_sub_one]
        omega
      rw [hsucc, List.range_succ_eq_map, List.map_cons, List.map_map]
      congr 1
      · congr 1
        push_cast
        ring
      · apply List.map_congr_left
        intro k _
        simp only [Function.comp]
        congr 1
        push_cast
        ring
    · rw [if_neg hg]
      push_neg at hg
      have h3 : (length - LANE_THICKNESS - dist) / LANE_THICKNESS ≤ 0 :=
        div_nonpos_of_nonpos_of_nonneg (by linarith) (le_of_lt hS)
      have h4 : ⌈(length - LANE_THICKNESS - dist) / LANE_THICKNESS⌉ ≤ 0 :=
      Int.ceil_le.mpr (by exact_mod_cast h3)
      have h5 : (⌈(length - LANE_THICKNESS - dist) / LANE_THICKNESS⌉).toNat = 0 := by omega
      rw [h5]
      simp

theorem sidewalk_lines_eq (lane : Lane) :
    sidewalk_lines lane
      = (List.range (⌈(lane.length - 2 * LANE_THICKNESS) / LANE_THICKNESS⌉).toNat).map
          (fun k : Nat => sidewalkTickAt lane (LANE_THICKNESS * (1 + (k : ℚ)))) := by
  unfold sidewalk_lines
  rw [sidewalk_loop_eq_aux lane (⌈(lane.length - LANE_THICKNESS) / LANE_THICKNESS⌉).toNat
      lane.length LANE_THICKNESS (le_refl _)]
  have h1 : lane.length - LANE_THICKNESS - LANE_THICKNESS = lane.length - 2 * LANE_THICKNESS := by
    ring
  rw [h1]
  apply List.map_congr_left
  intro k _
  congr 1
  ring

theorem sidewalk_lines_length (lane : Lane) :
    (sidewalk_lines lane).length
      = (⌈(lane.length - 2 * LANE_THICKNESS) / LANE_THICKNESS⌉).toNat := by
  rw [sidewalk_lines_eq]
  simp

theorem parking_spot_lines_length (lane : Lane) (i : Nat) :
    (parking_spot_lines lane i).length = 3 := by
  simp [parking_spot_lines]

theorem parking_lines_upto_length (lane : Lane) :
    ∀ n, (parking_lines_upto lane n).length = 3 * (n + 1) := by
  intro n
  induction n with
  | zero => simp [parking_lines_upto, parking_spot_lines_length]
  | succ k ih =>
    rw [parking_lines_upto]
    simp [List.length_append, ih, parking_spot_lines_length]
    ring

theorem parking_lines_upto_getElem (lane : Lane) :
    ∀ n i j, i ≤ n → j < 3 →
      (parking_lines_upto lane n)[3 * i + j]? = (parking_spot_lines lane i)[j]? := by
  intro n
  induction n with
  | zero =>
    intro i j hi hj
    have h0 : i = 0 := Nat.le_zero.mp hi
    subst h0
    simp [parking_lines_upto]
  | succ k ih =>
    intro i j hi hj
    rw [parking_lines_upto]
    by_cases hik : i ≤ k
    · have hlt : 3 * i + j < (parking_lines_upto lane k).length := by
        rw [parking_lines_upto_length]
        omega
      rw [List.getElem?_append, if_pos hlt]
      exact ih i j hik hj
    · have hik2 : i = k + 1 := by omega
      subst hik2
      have hge : (parking_lines_upto lane k).length ≤ 3 * (k + 1) + j := by
        rw [parking_lines_upto_length]
        omega
      rw [List.getElem?_append, if_neg (not_lt.mpr hge)]
      congr 1
      rw [parking_lines_upto_length]
      omega

theorem stop_line_none_of_priority (road : Road) (lane : Lane) (map : Map)
    (h : (map.get_stop_sign lane.dst_i).is_priority_lane lane.id = true) :
    calculate_stop_sign_line road lane map = none := by
  unfold calculate_stop_sign_line
  rw [if_pos h]

theorem stop_line_kind (road : Road) (lane : Lane) (map : Map) (m : Marking)
    (h : calculate_stop_sign_line road lane map = some m) : m.kind = MarkingKind.stopLine := by
  unfold calculate_stop_sign_line at h
  split at h
  · cases h
  · split at h
    · cases h
    · injection h with h2
      subst h2
      rfl

theorem driving_lines_kind (lane : Lane) (road : Road) (m : Marking)
    (h : calculate_driving_lines lane road = some m) : m.kind = MarkingKind.drivingLines := by
  unfold calculate_driving_lines at h
  split at h
  · cases h
  · dsimp only at h
    split at h
    · cases h
    · injection h with h2
      subst h2
      rfl

theorem turn_markings_kind (turn : Turn) (map : Map) (m : Marking)
    (h : turn_markings turn map = some m) : m.kind = MarkingKind.turnMarking := by
  unfold turn_markings at h
  dsimp only at h
  split at h
  · cases h
  · injection h with h2
    subst h2
    rfl

theorem mem_calculate_turn_markings_kind (map : Map) (lane : Lane) (m : Marking)
    (h : m ∈ calculate_turn_markings map lane) : m.kind = MarkingKind.turnMarking := by
  unfold calculate_turn_markings at h
  split at h
  · cases h
  · obtain ⟨t, _, ht⟩ := List.mem_filterMap.mp h
    exact turn_markings_kind t map m ht

theorem filterMap_length_of_isSome {α β : Type} (f : α → Option β) (l : List α)
    (h : ∀ a ∈ l, (f a).isSome) : (l.filterMap f).length = l.length := by
  induction l with
  | nil => rfl
  | cons a rest ih =>
    have ha := h a (List.mem_cons_self a rest)
    obtain ⟨b, hb⟩ := Option.isSome_iff_exists.mp ha
    rw [List.filterMap_cons, hb]
    simp only [List.length_cons]
    rw [ih fun x hx => h x (List.mem_cons_of_mem a hx)]

theorem mem_typeMarkings_kinds (lane : Lane) (road : Road) (map : Map) (m : Marking)
    (hm : m ∈ typeMarkings lane road map) :
    m.kind = MarkingKind.sidewalkLines ∨ m.kind = MarkingKind.parkingLines ∨
    m.kind = MarkingKind.drivingLines ∨ m.kind = MarkingKind.turnMarking := by
  unfold typeMarkings at hm
  cases htype : lane.lane_type
  all_goals rw [htype] at hm
  case Sidewalk =>
    simp only [List.mem_singleton] at hm
    subst hm
    left
    rfl
  case Parking =>
    simp only [List.mem_singleton] at hm
    subst hm
    right
    left
    rfl
  case Biking => exact absurd hm (List.not_mem_nil m)
  case Driving =>
    rcases List.mem_append.mp hm with h3 | h4
    · cases hd : calculate_driving_lines lane road with
      | none => rw [hd] at h3; exact absurd h3 (List.not_mem_nil m)
      | some mk =>
        rw [hd] at h3
        simp only [Option.toList_some, List.mem_singleton] at h3
        subst h3
        right
        right
        left
        exact driving_lines_kind lane road m hd
    · right
      right
      right
      exact mem_calculate_turn_markings_kind map lane m h4
  case Bus =>
    rcases List.mem_append.mp hm with h3 | h4
    · cases hd : calculate_driving_lines lane road with
      | none => rw [hd] at h3; exact absurd h3 (List.not_mem_nil m)
      | some mk =>
        rw [hd] at h3
        simp only [Option.toList_some, List.mem_singleton] at h3
        subst h3
        right
        right
        left
        exact driving_lines_kind lane road m hd
    · right
      right
      right
      exact mem_calculate_turn_markings_kind map lane m h4

theorem countP_kind_eq_zero (l : List Marking) (k : MarkingKind)
    (h : ∀ m ∈ l, m.kind ≠ k) :
    l.countP (fun m => decide (m.kind = k)) = 0 :=
  List.countP_eq_zero.mpr fun a ha => by simpa using h a ha

/-! ### Claims -/

/-- C1 (amended): for a sidewalk lane of length L with tile spacing S equal to
the lane thickness, the tick loop produces exactly the ticks at arc lengths
S·(1+k) that lie strictly below L - S, i.e. `(⌈(L - 2S)/S⌉).toNat` many (this
equals `⌊(L - S)/S⌋` except when L - S is an exact multiple of S, where it is
one less), zero ticks whenever L ≤ 2S, and every tick lies in the half-open
interval [S, L - S). -/
theorem c1_sidewalk_tick_count (lane : Lane) :
    (sidewalk_lines lane).length
        = (⌈(lane.length - 2 * LANE_THICKNESS) / LANE_THICKNESS⌉).toNat ∧
    (lane.length ≤ 2 * LANE_THICKNESS → sidewalk_lines lane = []) ∧
    (∀ k < (sidewalk_lines lane).length,
      (sidewalk_lines lane)[k]? = some (sidewalkTickAt lane (LANE_THICKNESS * (1 + (k : ℚ)))) ∧
      LANE_THICKNESS ≤ LANE_THICKNESS * (1 + (k : ℚ)) ∧
      LANE_THICKNESS * (1 + (k : ℚ)) < lane.length - LANE_THICKNESS) := by
  have hS : (0 : ℚ) < LANE_THICKNESS := by norm_num [LANE_THICKNESS]
  refine ⟨sidewalk_lines_length lane, ?_, ?_⟩
  · intro hle
    rw [sidewalk_lines_eq]
    have h3 : (lane.length - 2 * LANE_THICKNESS) / LANE_THICKNESS ≤ 0 :=
      div_nonpos_of_nonpos_of_nonneg (by linarith) (le_of_lt hS)
    have h4 : ⌈(lane.length - 2 * LANE_THICKNESS) / LANE_THICKNESS⌉ ≤ 0 :=
      Int.ceil_le.mpr (by exact_mod_cast h3)
    have h5 : (⌈(lane.length - 2 * LANE_THICKNESS) / LANE_THICKNESS⌉).toNat = 0 := by omega
    rw [h5]
    simp
  · intro k hk
    rw [sidewalk_lines_length] at hk
    have h1 : (k : ℤ) < ⌈(lane.length - 2 * LANE_THICKNESS) / LANE_THICKNESS⌉ := by omega
    have h3 := Int.ceil_lt_add_one ((lane.length - 2 * LANE_THICKNESS) / LANE_THICKNESS)
    have h4 : ((k : ℚ)) + 1 ≤ ((⌈(lane.length - 2 * LANE_THICKNESS) / LANE_THICKNESS⌉ : ℤ) : ℚ) := by
      exact_mod_cast h1
    have h5 : (k : ℚ) < (lane.length - 2 * LANE_THICKNESS) / LANE_THICKNESS := by linarith
    rw [lt_div_iff₀ hS] at h5
    refine ⟨?_, ?_, ?_⟩
    · rw [sidewalk_lines_eq, List.getElem?_map, List.getElem?_range hk]
      rfl
    · have hknn : (0 : ℚ) ≤ (k : ℚ) := Nat.cast_nonneg k
      nlinarith
    · linarith

/-- C1 witness: on the length-4 sidewalk lane (shorter than two tile
spacings), the amended theorem yields the empty tick list. -/
theorem c1_sidewalk_tick_count_witness : sidewalk_lines swLane = [] :=
  (c1_sidewalk_tick_count swLane).2.1 (by norm_num [swLane, straight, Lane.length,
    PolyLine.length, LANE_THICKNESS])

/-- C1 counterexample: for the straight sidewalk lane of length 15/2 (three
tile spacings of 5/2), the code produces one tick, whereas the claimed formula
`floor((L - S)/S)` gives 2. -/
theorem c1_sidewalk_floor_counterexample :
    (sidewalk_lines cxLane).length = 1 ∧
    (⌊(cxLane.length - LANE_THICKNESS) / LANE_THICKNESS⌋).toNat = 2 := by
  constructor
  · rw [sidewalk_lines_length]
    norm_num [cxLane, straight, Lane.length, PolyLine.length, LANE_THICKNESS]
  · norm_num [cxLane, straight, Lane.length, PolyLine.length, LANE_THICKNESS]
    rfl

/-- C3: the dashed-divider generator yields nothing for the lane at
cross-section offset 0 regardless of length, yields nothing when the lane's
left edge (centerline shifted left by half the lane thickness) is shorter than
two dash separations, and otherwise dashes exactly the sub-polyline obtained
by slicing one dash separation off each end of that left edge. -/
theorem c3_driving_divider (lane : Lane) (road : Road) :
    ((road.dir_and_offset lane.id).2 = 0 → calculate_driving_lines lane road = none) ∧
    ((lane.lane_center_pts.shift_left (LANE_THICKNESS / 2)).length < 2 * (3 / 2) →
      calculate_driving_lines lane road = none) ∧
    ((road.dir_and_offset lane.id).2 ≠ 0 →
      ¬ (lane.lane_center_pts.shift_left (LANE_THICKNESS / 2)).length < 2 * (3 / 2) →
      calculate_driving_lines lane road
        = some (.drivingLines
            ((((lane.lane_center_pts.shift_left (LANE_THICKNESS / 2)).slice (3 / 2)
                ((lane.lane_center_pts.shift_left (LANE_THICKNESS / 2)).length - 3 / 2)).1).dashed_polygons
              (1 / 4) 1 (3 / 2)))) := by
  refine ⟨?_, ?_, ?_⟩
  · intro h
    unfold calculate_driving_lines
    rw [if_pos h]
  · intro h
    unfold calculate_driving_lines
    by_cases h0 : (road.dir_and_offset lane.id).2 = 0
    · rw [if_pos h0]
    · rw [if_neg h0]
      dsimp only
      rw [if_pos h]
  · intro h1 h2
    unfold calculate_driving_lines
    rw [if_neg h1]
    dsimp only
    rw [if_neg h2]

/-- C3 witness: on the offset-0 road the generator yields nothing for the
length-20 driving lane. -/
theorem c3_driving_divider_witness : calculate_driving_lines c7lane zeroOffsetRoad = none :=
  (c3_driving_divider c7lane zeroOffsetRoad).1 rfl

/-- C8: the builder is total — for every lane and map it constructs a
`DrawLane` whose id, body polygon, marking list and z-order are exactly the
prescribed ones; generators that produce nothing only shorten the marking
list, they never prevent construction. -/
theorem c8_builder_total (lane : Lane) (map : Map) :
    (DrawLane.new lane map).id = lane.id ∧
    (DrawLane.new lane map).polygon = lane.lane_center_pts.make_polygons LANE_THICKNESS ∧
    (DrawLane.new lane map).markings = laneMarkings lane map ∧
    (DrawLane.new lane map).zorder = (map.get_r lane.parent).get_zorder :=
  ⟨rfl, rfl, rfl, rfl⟩

/-- C9: the builder is a deterministic pure function — structurally equal
Lane/Map snapshots produce identical `DrawLane` output. -/
theorem c9_builder_deterministic (l1 l2 : Lane) (m1 m2 : Map)
    (hl : l1 = l2) (hm : m1 = m2) : DrawLane.new l1 m1 = DrawLane.new l2 m2 := by
  rw [hl, hm]

/-- C9 witness: two invocations of the builder on the concrete snapshot agree. -/
theorem c9_builder_deterministic_witness :
    DrawLane.new c7lane c7map = DrawLane.new c7lane c7map :=
  c9_builder_deterministic c7lane c7lane c7map c7map rfl rfl

/-- C2: the stall-bracket generator yields zero segments for a parking lane of
capacity 0 and exactly 3·(n+1) segments for capacity n > 0; for each spot
index i ≤ n the anchor is the point sampled at arc length
`PARKING_SPOT_LENGTH * (1 + i)`, pushed 40% of the lane thickness along the
heading rotated 270 degrees, and the three legs at positions 3i, 3i+1, 3i+2
(perpendicular stem, upper leg, lower leg) all have length 1. -/
theorem c2_parking_brackets (lane : Lane) (hu : lane.unitDirs) :
    (lane.number_parking_spots = 0 → parking_lines lane = []) ∧
    (0 < lane.number_parking_spots →
      (parking_lines lane).length = 3 * (lane.number_parking_spots + 1) ∧
      ∀ i ≤ lane.number_parking_spots,
        let s := lane.dist_along (PARKING_SPOT_LENGTH * (1 + (i : ℚ)))
        let perp_angle := s.2.rotate_degs 270
        let t_pt := s.1.project_away (LANE_THICKNESS * (2 / 5)) perp_angle
        (parking_lines lane)[3 * i]?
            = some (Line.new t_pt (t_pt.project_away 1 perp_angle.opposite) perp_angle.opposite) ∧
        (parking_lines lane)[3 * i + 1]? = some (Line.new t_pt (t_pt.project_away 1 s.2) s.2) ∧
        (parking_lines lane)[3 * i + 2]?
            = some (Line.new t_pt (t_pt.project_away 1 s.2.opposite) s.2.opposite) ∧
        (Line.new t_pt (t_pt.project_away 1 perp_angle.opposite) perp_angle.opposite).lengthSq
            = 1 ∧
        (Line.new t_pt (t_pt.project_away 1 s.2) s.2).lengthSq = 1 ∧
        (Line.new t_pt (t_pt.project_away 1 s.2.opposite) s.2.opposite).lengthSq = 1) := by
  constructor
  · intro h0
    unfold parking_lines
    rw [if_neg (by omega)]
  · intro hpos
    refine ⟨?_, ?_⟩
    · unfold parking_lines
      rw [if_pos hpos, parking_lines_upto_length]
    · intro i hi
      have hget : ∀ j, j < 3 →
          (parking_lines lane)[3 * i + j]? = (parking_spot_lines lane i)[j]? := by
        intro j hj
        unfold parking_lines
        rw [if_pos hpos]
        exact parking_lines_upto_getElem lane _ i j hi hj
      have h0 := hget 0 (by omega)
      have h1 := hget 1 (by omega)
      have h2 := hget 2 (by omega)
      rw [Nat.add_zero] at h0
      have hunit : ((lane.dist_along (PARKING_SPOT_LENGTH * (1 + (i : ℚ)))).2).isUnit :=
        lane.dist_along_isUnit _ hu
      have hperp : (((lane.dist_along
          (PARKING_SPOT_LENGTH * (1 + (i : ℚ)))).2).rotate_degs 270).isUnit :=
        Angle.isUnit_rotate_degs _ 270 hunit
      refine ⟨?_, ?_, ?_, ?_, ?_, ?_⟩
      · rw [h0]
        simp [parking_spot_lines]
      · rw [h1]
        simp [parking_spot_lines]
      · rw [h2]
        simp [parking_spot_lines]
      · simpa using line_new_project_lengthSq _ _ 1 (Angle.isUnit_opposite _ hperp)
      · simpa using line_new_project_lengthSq _ _ 1 hunit
      · simpa using line_new_project_lengthSq _ _ 1 (Angle.isUnit_opposite _ hunit)

/-- C2 witness: the straight two-spot parking lane gets 3·(2+1) = 9 bracket
segments. -/
theorem c2_parking_brackets_witness :
    (parking_lines pLane).length = 3 * (pLane.number_parking_spots + 1) :=
  ((c2_parking_brackets pLane (by
    intro s hs
    simp only [pLane, straight, List.mem_singleton] at hs
    subst hs
    norm_num [Angle.isUnit])).2 (by norm_num [pLane])).1

/-- C4: for a lane that its destination intersection's stop sign marks as a
priority lane, no marking the builder emits is a stop-line marking. -/
theorem c4_priority_no_stop_line (lane : Lane) (map : Map)
    (h : (map.get_stop_sign lane.dst_i).is_priority_lane lane.id = true) :
    ∀ m ∈ (DrawLane.new lane map).markings, m.kind ≠ MarkingKind.stopLine := by
  intro m hm
  have hnone := stop_line_none_of_priority (map.get_r lane.parent) lane map h
  have hm2 : m ∈ laneMarkings lane map := hm
  unfold laneMarkings at hm2
  dsimp only at hm2
  rw [hnone] at hm2
  simp only [Option.toList_none, ite_self, List.append_nil] at hm2
  rcases List.mem_append.mp hm2 with h1 | h2
  · split at h1
    · simp only [List.mem_singleton] at h1
      subst h1
      simp [Marking.kind]
    · exact absurd h1 (List.not_mem_nil m)
  · rcases mem_typeMarkings_kinds lane (map.get_r lane.parent) map m h2 with hk | hk | hk | hk <;>
      rw [hk] <;> simp

/-- C4 witness: on the priority map, the first marking the builder emits for
the driving lane is not a stop line (it is the road's center marking). -/
theorem c4_priority_no_stop_line_witness :
    ((DrawLane.new c7lane c4map).markings.head!).kind ≠ MarkingKind.stopLine :=
  c4_priority_no_stop_line c7lane c4map rfl _
    (List.head!_mem_self (by
      show laneMarkings c7lane c4map ≠ []
      simp [laneMarkings, c4map, c4road, c7lane, Road.is_canonical_lane]))

/-- C5: whenever the stop-line generator emits a marking, the perpendicular
segment sits at the sample one length-unit before the lane's end (and nothing
is emitted when the lane is too short for that sample); on the road's
canonical lane the segment is additionally shifted right by half the
center-marking thickness and its squared length is
`(lane_thickness - center_marking_thickness)²`, on a non-canonical lane its
squared length is `lane_thickness²`. -/
theorem c5_stop_line_geometry (road : Road) (lane : Lane) (map : Map) (hu : lane.unitDirs) :
    (lane.safe_dist_along (lane.length - 1) = none →
      calculate_stop_sign_line road lane map = none) ∧
    (∀ m, calculate_stop_sign_line road lane map = some m →
      ∃ pt1 angle l, lane.safe_dist_along (lane.length - 1) = some (pt1, angle) ∧
        m = Marking.stopLine l ∧
        (road.is_canonical_lane lane.id = true →
          l = perp_line ((Line.new pt1 (pt1.project_away 1 angle) angle).shift_right
                (BIG_ARROW_THICKNESS / 2)) (LANE_THICKNESS - BIG_ARROW_THICKNESS) ∧
          l.lengthSq = (LANE_THICKNESS - BIG_ARROW_THICKNESS) ^ 2) ∧
        (road.is_canonical_lane lane.id = false →
          l = perp_line (Line.new pt1 (pt1.project_away 1 angle) angle) LANE_THICKNESS ∧
          l.lengthSq = LANE_THICKNESS ^ 2)) := by
  constructor
  · intro hnone
    unfold calculate_stop_sign_line
    split
    · rfl
    · rw [hnone]
  · intro m hm
    unfold calculate_stop_sign_line at hm
    split at hm
    · cases hm
    · cases hs : lane.safe_dist_along (lane.length - 1) with
      | none => rw [hs] at hm; cases hm
      | some pa =>
        obtain ⟨pt1, angle⟩ := pa
        rw [hs] at hm
        dsimp only at hm
        injection hm with hm2
        have hangle : angle.isUnit := lane.safe_dist_along_isUnit _ pt1 angle hs hu
        refine ⟨pt1, angle,
          (if road.is_canonical_lane lane.id then
            perp_line ((Line.new pt1 (pt1.project_away 1 angle) angle).shift_right
              (BIG_ARROW_THICKNESS / 2)) (LANE_THICKNESS - BIG_ARROW_THICKNESS)
          else perp_line (Line.new pt1 (pt1.project_away 1 angle) angle) LANE_THICKNESS),
          rfl, hm2.symm, ?_, ?_⟩
        · intro hc
          rw [if_pos hc]
          exact ⟨rfl, perp_line_lengthSq _ _ hangle⟩
        · intro hc
          rw [if_neg (by simp [hc])]
          exact ⟨rfl, perp_line_lengthSq _ _ hangle⟩

/-- C5 witness: the lane of length 1/2 is too short for the sample one unit
before its end, so the generator emits nothing. -/
theorem c5_stop_line_geometry_witness :
    calculate_stop_sign_line c7road shortLane c7map = none :=
  (c5_stop_line_geometry c7road shortLane c7map (by
    intro s hs
    simp only [shortLane, straight, List.mem_singleton] at hs
    subst hs
    norm_num [Angle.isUnit])).1
    (by norm_num [Lane.safe_dist_along, shortLane, straight, Lane.length, PolyLine.length])

/-- C6: the turn-arrow generator yields nothing when the closest-driving-lane
query fails; an individual turn yields nothing when its source lane is shorter
than 7 length-units and otherwise yields exactly one marking whose common base
is the centerline slice from 7 to 5 units before the end and whose arrow runs
from the base's last point along the turn's heading for half the lane
thickness; when the query succeeds and all departing turns are long enough,
there is exactly one marking per departing turn. -/
theorem c6_turn_arrows (map : Map) (lane : Lane) :
    (map.find_closest_lane lane.id [LaneType.Driving] = none →
      calculate_turn_markings map lane = []) ∧
    (∀ t : Turn, (map.get_l t.id_src).length < 7 → turn_markings t map = none) ∧
    (∀ t : Turn, 7 ≤ (map.get_l t.id_src).length →
      turn_markings t map
        = some (.turnMarking
            ((((map.get_l t.id_src).lane_center_pts.slice ((map.get_l t.id_src).length - 7)
                ((map.get_l t.id_src).length - 5)).1).make_polygons (1 / 10))
            (Line.new
              (((map.get_l t.id_src).lane_center_pts.slice ((map.get_l t.id_src).length - 7)
                  ((map.get_l t.id_src).length - 5)).1).last_pt
              ((((map.get_l t.id_src).lane_center_pts.slice ((map.get_l t.id_src).length - 7)
                  ((map.get_l t.id_src).length - 5)).1).last_pt.project_away
                (LANE_THICKNESS / 2) t.angle)
              t.angle))) ∧
    ((map.find_closest_lane lane.id [LaneType.Driving]).isSome →
      calculate_turn_markings map lane
        = (map.get_turns_from_lane lane.id).filterMap (fun t => turn_markings t map) ∧
      ((∀ t ∈ map.get_turns_from_lane lane.id, 7 ≤ (map.get_l t.id_src).length) →
        (calculate_turn_markings map lane).length
          = (map.get_turns_from_lane lane.id).length)) := by
  have hshort : ∀ t : Turn, (map.get_l t.id_src).length < 7 → turn_markings t map = none := by
    intro t h
    unfold turn_markings
    dsimp only
    rw [if_pos h]
  have hlong : ∀ t : Turn, 7 ≤ (map.get_l t.id_src).length →
      turn_markings t map
        = some (.turnMarking
            ((((map.get_l t.id_src).lane_center_pts.slice ((map.get_l t.id_src).length - 7)
                ((map.get_l t.id_src).length - 5)).1).make_polygons (1 / 10))
            (Line.new
              (((map.get_l t.id_src).lane_center_pts.slice ((map.get_l t.id_src).length - 7)
                  ((map.get_l t.id_src).length - 5)).1).last_pt
              ((((map.get_l t.id_src).lane_center_pts.slice ((map.get_l t.id_src).length - 7)
                  ((map.get_l t.id_src).length - 5)).1).last_pt.project_away
                (LANE_THICKNESS / 2) t.angle)
              t.angle)) := by
    intro t h
    unfold turn_markings
    dsimp only
    rw [if_neg (not_lt.mpr h)]
  refine ⟨?_, hshort, hlong, ?_⟩
  · intro h
    unfold calculate_turn_markings
    rw [if_pos (by rw [h]; rfl)]
  · intro hsome
    obtain ⟨v, hv⟩ := Option.isSome_iff_exists.mp hsome
    have heq : calculate_turn_markings map lane
        = (map.get_turns_from_lane lane.id).filterMap (fun t => turn_markings t map) := by
      unfold calculate_turn_markings
      rw [if_neg (by rw [hv]; simp)]
    refine ⟨heq, ?_⟩
    intro hall
    rw [heq]
    apply filterMap_length_of_isSome
    intro t ht
    rw [hlong t (hall t ht)]
    rfl

/-- C6 witness: on the map whose closest-driving-lane query fails, the
generator yields no turn markings for the length-20 driving lane. -/
theorem c6_turn_arrows_witness : calculate_turn_markings c6map c7lane = [] :=
  (c6_turn_arrows c6map c7lane).1 rfl

/-- C7: for the straight driving lane of length 20 at cross-section offset 1,
non-canonical, with two departing turns, a sibling driving lane, and a
non-priority stop-sign destination, the builder yields exactly four markings
in order: one dashed divider, the two turn arrows, and one stop line. -/
theorem c7_end_to_end :
    ((DrawLane.new c7lane c7map).markings).map Marking.kind
      = [MarkingKind.drivingLines, MarkingKind.turnMarking, MarkingKind.turnMarking,
          MarkingKind.stopLine] := by
  have hmar : (DrawLane.new c7lane c7map).markings = laneMarkings c7lane c7map := rfl
  rw [hmar]
  norm_num [laneMarkings, typeMarkings, c7map, c7road, c7lane, straight,
    Road.is_canonical_lane, calculate_driving_lines, PolyLine.shift_left, PolyLine.shiftBy,
    PolyLine.length, calculate_turn_markings, turn_markings, Lane.length, Lane.is_driving,
    calculate_stop_sign_line, ControlStopSign.is_priority_lane, Lane.safe_dist_along,
    Lane.dist_along, PolyLine.dist_along, distAlongSegs, Pt2D.project_away,
    List.filterMap_cons, Marking.kind]

/-- C10: sidewalk and parking lanes always receive exactly one type-specific
marking, even when it carries zero segments, whereas the dashed-divider,
turn-arrow and stop-line markings are omitted from the list whenever their
generators produce nothing. -/
theorem c10_type_specific_always_pushed (lane : Lane) (map : Map) :
    (lane.lane_type = LaneType.Sidewalk →
      ((DrawLane.new lane map).markings.countP
        (fun m => decide (m.kind = MarkingKind.sidewalkLines))) = 1) ∧
    (lane.lane_type = LaneType.Parking →
      ((DrawLane.new lane map).markings.countP
        (fun m => decide (m.kind = MarkingKind.parkingLines))) = 1) ∧
    ((lane.lane_type = LaneType.Driving ∨ lane.lane_type = LaneType.Bus) →
      (calculate_driving_lines lane (map.get_r lane.parent) = none →
        ((DrawLane.new lane map).markings.countP
          (fun m => decide (m.kind = MarkingKind.drivingLines))) = 0) ∧
      (calculate_turn_markings map lane = [] →
        ((DrawLane.new lane map).markings.countP
          (fun m => decide (m.kind = MarkingKind.turnMarking))) = 0)) ∧
    (calculate_stop_sign_line (map.get_r lane.parent) lane map = none →
      ((DrawLane.new lane map).markings.countP
        (fun m => decide (m.kind = MarkingKind.stopLine))) = 0) := by
  have hmar : (DrawLane.new lane map).markings = laneMarkings lane map := rfl
  have hA : ∀ k, k ≠ MarkingKind.roadCenterLine →
      (if (map.get_r lane.parent).is_canonical_lane lane.id then
        [Marking.roadCenterLine (PolyLine.lines (map.get_r lane.parent).center_pts.start
          (map.get_r lane.parent).center_pts.segs)]
      else []).countP (fun m => decide (m.kind = k)) = 0 := by
    intro k hk
    apply countP_kind_eq_zero
    intro m hmk
    split at hmk
    · simp only [List.mem_singleton] at hmk
      subst hmk
      simpa [Marking.kind] using fun hc => hk hc.symm
    · exact absurd hmk (List.not_mem_nil m)
  have hC : ∀ k, k ≠ MarkingKind.stopLine →
      (if lane.is_driving
          && (map.get_i lane.dst_i).intersection_type == IntersectionType.StopSign then
        (calculate_stop_sign_line (map.get_r lane.parent) lane map).toList
      else []).countP (fun m => decide (m.kind = k)) = 0 := by
    intro k hk
    apply countP_kind_eq_zero
    intro m hmk
    split at hmk
    · cases hst : calculate_stop_sign_line (map.get_r lane.parent) lane map with
      | none => rw [hst] at hmk; exact absurd hmk (List.not_mem_nil m)
      | some mk =>
        rw [hst] at hmk
        simp only [Option.toList_some, List.mem_singleton] at hmk
        subst hmk
        rw [stop_line_kind _ _ _ _ hst]
        exact fun hc => hk hc.symm
    · exact absurd hmk (List.not_mem_nil m)
  have hsplit : ∀ k, (laneMarkings lane map).countP (fun m => decide (m.kind = k))
      = ((if (map.get_r lane.parent).is_canonical_lane lane.id then
            [Marking.roadCenterLine (PolyLine.lines (map.get_r lane.parent).center_pts.start
              (map.get_r lane.parent).center_pts.segs)]
          else []).countP (fun m => decide (m.kind = k))
        + (typeMarkings lane (map.get_r lane.parent) map).countP
            (fun m => decide (m.kind = k)))
        + (if lane.is_driving
              && (map.get_i lane.dst_i).intersection_type == IntersectionType.StopSign then
            (calculate_stop_sign_line (map.get_r lane.parent) lane map).toList
          else []).countP (fun m => decide (m.kind = k)) := by
    intro k
    unfold laneMarkings
    dsimp only
    rw [List.countP_append, List.countP_append]
  refine ⟨?_, ?_, ?_, ?_⟩
  · intro h
    rw [hmar, hsplit, hA _ (by simp), hC _ (by simp)]
    unfold typeMarkings
    rw [h]
    simp [List.countP_cons, calculate_sidewalk_lines, Marking.kind]
  · intro h
    rw [hmar, hsplit, hA _ (by simp), hC _ (by simp)]
    unfold typeMarkings
    rw [h]
    simp [List.countP_cons, calculate_parking_lines, Marking.kind]
  · intro h
    constructor
    · intro hd
      rw [hmar, hsplit, hA _ (by simp), hC _ (by simp)]
      have hB : (typeMarkings lane (map.get_r lane.parent) map).countP
          (fun m => decide (m.kind = MarkingKind.drivingLines)) = 0 := by
        apply countP_kind_eq_zero
        intro m hmk
        unfold typeMarkings at hmk
        rcases h with h | h <;> rw [h] at hmk <;>
          rcases List.mem_append.mp hmk with h3 | h4
        · rw [hd] at h3; exact absurd h3 (List.not_mem_nil m)
        · rw [mem_calculate_turn_markings_kind map lane m h4]; simp
        · rw [hd] at h3; exact absurd h3 (List.not_mem_nil m)
        · rw [mem_calculate_turn_markings_kind map lane m h4]; simp
      rw [hB]
    · intro ht
      rw [hmar, hsplit, hA _ (by simp), hC _ (by simp)]
      have hB : (typeMarkings lane (map.get_r lane.parent) map).countP
          (fun m => decide (m.kind = MarkingKind.turnMarking)) = 0 := by
        apply countP_kind_eq_zero
        intro m hmk
        unfold typeMarkings at hmk
        rcases h with h | h <;> rw [h] at hmk <;> rw [ht] at hmk <;>
          rw [List.append_nil] at hmk <;>
          cases hd : calculate_driving_lines lane (map.get_r lane.parent) <;>
          rw [hd] at hmk
        · exact absurd hmk (List.not_mem_nil m)
        · simp only [Option.toList_some, List.mem_singleton] at hmk
          subst hmk
          rw [driving_lines_kind _ _ _ hd]
          simp
        · exact absurd hmk (List.not_mem_nil m)
        · simp only [Option.toList_some, List.mem_singleton] at hmk
          subst hmk
          rw [driving_lines_kind _ _ _ hd]
          simp
      rw [hB]
  · intro hst
    rw [hmar, hsplit]
    have hCz : (if lane.is_driving
          && (map.get_i lane.dst_i).intersection_type == IntersectionType.StopSign then
        (calculate_stop_sign_line (map.get_r lane.parent) lane map).toList
      else []).countP (fun m => decide (m.kind = MarkingKind.stopLine)) = 0 := by
      rw [hst]
      simp
    have hB : (typeMarkings lane (map.get_r lane.parent) map).countP
        (fun m => decide (m.kind = MarkingKind.stopLine)) = 0 := by
      apply countP_kind_eq_zero
      intro m hmk
      rcases mem_typeMarkings_kinds lane (map.get_r lane.parent) map m hmk with
        hk | hk | hk | hk <;> rw [hk] <;> simp
    rw [hCz, hB, hA _ (by simp)]

/-- C10 witness: the short sidewalk lane (whose tick list is empty) still gets
exactly one sidewalk marking. -/
theorem c10_type_specific_always_pushed_witness :
    ((DrawLane.new swLane c7map).markings.countP
      (fun m => decide (m.kind = MarkingKind.sidewalkLines))) = 1 :=
  (c10_type_specific_always_pushed swLane c7map).1 rfl

end AbStreet
